import Mathlib

/-!
Verification of the Serper MCP server (TypeScript) against its specification.

The development shallowly embeds the pure logic of the repository:
JavaScript strings are modelled as `List Char`, the regex-based string
rewriting used by `buildAdvancedQuery` (src/services/serper-client.ts) and
`QueryValidator.sanitizeQuery` (src/utils/query-validator.ts) is embedded as
structurally recursive character-list functions, the network-facing
operations of `SerperClient` are split into their pure request-construction
and response-handling phases, and the protocol handlers of `src/index.ts`
and the prompt library of `src/prompts/index.ts` become total functions
returning `Except` for the throwing paths.
-/

/-- JavaScript strings, modelled as lists of characters. -/
abbrev Str := List Char

/-- ASCII whitespace, the fragment of the JS `\s` class relevant here. -/
def isWS (c : Char) : Bool := c == ' ' || c == '\t' || c == '\n' || c == '\r'

/-- The first character (if any) is not whitespace. -/
def startsNonWS : Str → Bool
  | [] => true
  | c :: _ => !isWS c

/-- The last character (if any) is not whitespace. -/
def endsNonWS : Str → Bool
  | [] => true
  | [c] => !isWS c
  | _ :: c :: cs => endsNonWS (c :: cs)

/-- No two consecutive whitespace characters occur. -/
def noTwoWS : Str → Bool
  | [] => true
  | [_] => true
  | a :: b :: cs => (!(isWS a && isWS b)) && noTwoWS (b :: cs)

/-- A whitespace-normalized string: no leading or trailing whitespace and no
two consecutive whitespace characters. -/
def wsNormB (l : Str) : Bool := noTwoWS l && startsNonWS l && endsNonWS l

/-- Embedding of `String.prototype.trim`: strip whitespace from both ends. -/
def trimChars (l : Str) : Str :=
  ((l.dropWhile isWS).reverse.dropWhile isWS).reverse

/-- Embedding of `.replace(/\s+/g, " ")`: every maximal run of whitespace is
replaced by a single space. -/
def collapseWS : Str → Str
  | [] => []
  | c :: cs =>
    if isWS c then
      match cs with
      | [] => [' ']
      | d :: _ => if isWS d then collapseWS cs else ' ' :: collapseWS cs
    else c :: collapseWS cs

/-- Embedding of `.replace(/X\x7b2,\x7d/g, "X")` for a character `X`: every
maximal run of two or more copies of `qc` is replaced by a single copy. -/
def collapseRun (qc : Char) : Str → Str
  | [] => []
  | c :: cs =>
    if c = qc then
      match cs with
      | [] => [qc]
      | d :: _ => if d = qc then collapseRun qc cs else c :: collapseRun qc cs
    else c :: collapseRun qc cs

/-- Embedding of `String.prototype.split(",")`. -/
def splitComma : Str → List Str
  | [] => [[]]
  | c :: cs =>
    if c = ',' then [] :: splitComma cs
    else
      match splitComma cs with
      | [] => [[c]]
      | t :: ts => (c :: t) :: ts

/-- Embedding of `Array.prototype.join(sep)` for arrays of strings. -/
def joinSep (sep : Str) : List Str → Str
  | [] => []
  | [t] => t
  | t :: u :: ts => t ++ sep ++ joinSep sep (u :: ts)

/-- Search parameters (`ISearchParams` in src/types/serper.ts as used by the
sources): the required free-text query plus optional fields. An absent field
and a field explicitly set to `undefined` are both `none`; the empty string
is `some []`. -/
structure SearchParams where
  q : Str
  gl : Option Str := none
  hl : Option Str := none
  location : Option Str := none
  num : Option Nat := none
  tbs : Option Str := none
  page : Option Nat := none
  autocorrect : Option Bool := none
  site : Option Str := none
  filetype : Option Str := none
  inurl : Option Str := none
  intitle : Option Str := none
  related : Option Str := none
  cache : Option Str := none
  before : Option Str := none
  after : Option Str := none
  exact : Option Str := none
  exclude : Option Str := none
  or : Option Str := none
deriving DecidableEq

/-- JS truthiness of an optional string value: `undefined` and `""` are
falsy, every other string is truthy. -/
def strTruthy : Option Str → Bool
  | none => false
  | some s => !s.isEmpty

/-- One conditional append `if (params.f) query += \x60 name:$\x7bparams.f\x7d\x60`
of `buildAdvancedQuery`: the rendered token (including its leading space),
or `[]` when the field is absent or empty. -/
def simpleTok (pre : Str) (o : Option Str) : Str :=
  match o with
  | none => []
  | some v => if v = [] then [] else pre ++ v

/-- The `exact` append of `buildAdvancedQuery`: a leading space and the
phrase quoted verbatim. -/
def exactTok (o : Option Str) : Str :=
  match o with
  | none => []
  | some v => if v = [] then [] else ' ' :: '"' :: v ++ ['"']

/-- The `exclude` append of `buildAdvancedQuery`:
`params.exclude.split(",").map(term => \x60 -$\x7bterm.trim()\x7d\x60).join("")`. -/
def excludeTok (o : Option Str) : Str :=
  match o with
  | none => []
  | some v =>
    if v = [] then []
    else ((splitComma v).map (fun t => ' ' :: '-' :: trimChars t)).flatten

/-- The `or` append of `buildAdvancedQuery`: a space, then the comma-split,
trimmed terms joined by `" OR "` inside parentheses. -/
def orTok (o : Option Str) : Str :=
  match o with
  | none => []
  | some v =>
    if v = [] then []
    else ' ' :: '(' :: (joinSep " OR ".data ((splitComma v).map trimChars) ++ [')'])

/-- Embedding of `SerperClient.buildAdvancedQuery`
(src/services/serper-client.ts lines 42-100): normalize the base query, then
append each present operator in the fixed source order, then trim. -/
def buildAdvancedQuery (params : SearchParams) : Str :=
  let query := collapseWS (trimChars params.q)
  let query := query ++ simpleTok " site:".data params.site
  let query := query ++ simpleTok " filetype:".data params.filetype
  let query := query ++ simpleTok " inurl:".data params.inurl
  let query := query ++ simpleTok " intitle:".data params.intitle
  let query := query ++ simpleTok " related:".data params.related
  let query := query ++ simpleTok " cache:".data params.cache
  let query := query ++ simpleTok " before:".data params.before
  let query := query ++ simpleTok " after:".data params.after
  let query := query ++ exactTok params.exact
  let query := query ++ excludeTok params.exclude
  let query := query ++ orTok params.or
  trimChars query

/-- ASCII word characters, the `\w` class: letters, digits, underscore. -/
def wordChar (c : Char) : Bool := c.isAlphanum || c = '_'

/-- The characters kept by `.replace(/[^\w\s\-"'@.:/]/g, "")` in
`QueryValidator.sanitizeQuery`. -/
def allowedChar (c : Char) : Bool :=
  wordChar c || isWS c || c = '-' || c = '"' || c = '\'' || c = '@' ||
    c = '.' || c = ':' || c = '/'

/-- A single or double quote character. -/
def isQuote (c : Char) : Bool := c = '"' || c = '\''

/-- The leading-quote half of `.replace(/^["']|["']$/g, "")`. -/
def dropLeadQuote : Str → Str
  | [] => []
  | c :: cs => if isQuote c then cs else c :: cs

/-- The trailing-quote half of `.replace(/^["']|["']$/g, "")`. -/
def dropTrailQuote (l : Str) : Str := (dropLeadQuote l.reverse).reverse

/-- The pure rewriting pipeline of `QueryValidator.sanitizeQuery`
(src/utils/query-validator.ts lines 17-24), applied in source order: trim,
collapse whitespace runs, collapse double-quote runs, collapse single-quote
runs, remove problematic characters, strip one leading and one trailing
quote, trim again. -/
def sanitizePipeline (q : Str) : Str :=
  trimChars
    (dropTrailQuote
      (dropLeadQuote
        ((collapseRun '\'' (collapseRun '"' (collapseWS (trimChars q)))).filter
          allowedChar)))

/-- Embedding of `QueryValidator.sanitizeQuery`: throws on a JS-falsy query
(the empty string; a non-string argument is not representable in the typed
embedding), otherwise returns the sanitized query. -/
def sanitizeQuery (query : Str) : Except Str Str :=
  if query = [] then Except.error "Query must be a non-empty string".data
  else Except.ok (sanitizePipeline query)

/-- Embedding of `QueryValidator.validateSearchParams`
(src/utils/query-validator.ts lines 30-47). The argument is the `q` property
of the params record, `none` when missing (a non-object params value or a
non-string `q` is not representable in the typed embedding; both throw in
the source exactly as the `none` case does here). The function is pure: no
network call is modelled or made. -/
def validateSearchParams (q : Option Str) : Except Str Unit :=
  match q with
  | none => Except.error "Query parameter \"q\" is required and must be a string".data
  | some qv =>
    if qv = [] then
      Except.error "Query parameter \"q\" is required and must be a string".data
    else
      match sanitizeQuery qv with
      | Except.error e => Except.error e
      | Except.ok s =>
        if s.length = 0 then
          Except.error "Query cannot be empty after sanitization".data
        else if s.length > 500 then
          Except.error "Query is too long (max 500 characters)".data
        else Except.ok ()

/-- Scrape parameters (`IScrapeParams`): required URL, optional markdown flag. -/
structure ScrapeParams where
  url : Str
  includeMarkdown : Option Bool := none
deriving DecidableEq

/-- Opaque search result: pass-through JSON payload. -/
structure SearchResult where
  raw : Str
deriving DecidableEq

/-- Opaque scrape result: pass-through JSON payload. -/
structure ScrapeResult where
  raw : Str
deriving DecidableEq

/-- The JSON body of an outbound request: a single params object, one JSON
array holding the whole batch, or a scrape payload. -/
inductive RequestBody where
  | single (params : SearchParams)
  | batch (paramsList : List SearchParams)
  | scrapePayload (params : ScrapeParams)
deriving DecidableEq

/-- An outbound HTTP request as constructed by the client (pure phase of the
network operations). -/
structure HttpRequest where
  url : Str
  httpMethod : Str
  apiKey : Str
  body : RequestBody
  followRedirects : Bool := false
deriving DecidableEq

/-- Default base URL of the `SerperClient` constructor. -/
def defaultBaseUrl : Str := "https://google.serper.dev".data

/-- The immutable configuration held by a `SerperClient` instance
(src/services/serper-client.ts lines 22-34). -/
structure SerperClient where
  apiKey : Str
  baseUrl : Str := defaultBaseUrl
deriving DecidableEq

/-- Request-construction phase of `SerperClient.search`: enhanced params with
the query expanded by `buildAdvancedQuery`, posted to `baseUrl ++ "/search"`. -/
def searchRequest (c : SerperClient) (params : SearchParams) : HttpRequest :=
  { url := c.baseUrl ++ "/search".data, httpMethod := "POST".data,
    apiKey := c.apiKey,
    body := RequestBody.single { params with q := buildAdvancedQuery params } }

/-- The hard-coded scrape endpoint of `SerperClient.scrape` (line 148). -/
def scrapeEndpoint : Str := "https://scrape.serper.dev".data

/-- Request-construction phase of `SerperClient.scrape` (lines 143-156):
rejects a missing/empty URL before any request is built, otherwise posts the
params to the constant scrape endpoint, following redirects. -/
def scrapeRequest (c : SerperClient) (params : ScrapeParams) :
    Except Str HttpRequest :=
  if params.url = [] then Except.error "URL is required for scraping".data
  else
    Except.ok
      { url := scrapeEndpoint, httpMethod := "POST".data, apiKey := c.apiKey,
        body := RequestBody.scrapePayload params, followRedirects := true }

/-- Modelled from the spec: the implementation of `SerperClient.batchSearch`
is not under src/ — `serper-client.ts` declares only `search` and `scrape`
in `ISerperClient`, while the second `search-tool.ts` variant and the
integration tests call `client.batchSearch`. Following spec section 4.2, the
operation rejects immediately with a "non-empty batch required" error when
the list is empty (no request value is constructed, hence no network call),
and otherwise sends the whole list as one JSON array body
(`RequestBody.batch`) to the same search endpoint. -/
def batchSearchRequest (c : SerperClient) (paramsList : List SearchParams) :
    Except Str HttpRequest :=
  if paramsList = [] then Except.error "non-empty batch required".data
  else
    Except.ok
      { url := c.baseUrl ++ "/search".data, httpMethod := "POST".data,
        apiKey := c.apiKey, body := RequestBody.batch paramsList }

/-- Modelled from the spec: response phase of `batchSearch` — the JSON array
response is returned as-is, index-aligned with the request list. -/
def batchSearchDecode (results : List SearchResult) : List SearchResult :=
  results

/-- An upstream HTTP response as seen by the client. -/
structure HttpResponse where
  status : Nat
  statusText : Str
  body : Str
deriving DecidableEq

/-- `Response.ok` of the fetch API: status in the 2xx range. -/
def respOk (r : HttpResponse) : Bool := 200 ≤ r.status && r.status ≤ 299

/-- The error message template shared by `SerperClient.search` (line 125) and
`SerperClient.scrape` (line 160). -/
def serperErrorMsg (r : HttpResponse) : Str :=
  "Serper API error: ".data ++ (Nat.repr r.status).data ++
    ' ' :: (r.statusText ++ (" - ".data ++ r.body))

/-- Response-handling phase of `SerperClient.search` (lines 122-130). -/
def searchHandleResponse (r : HttpResponse) : Except Str SearchResult :=
  if respOk r then Except.ok ⟨r.body⟩ else Except.error (serperErrorMsg r)

/-- Response-handling phase of `SerperClient.scrape` (lines 157-164). -/
def scrapeHandleResponse (r : HttpResponse) : Except Str ScrapeResult :=
  if respOk r then Except.ok ⟨r.body⟩ else Except.error (serperErrorMsg r)

/-- The loosely-typed `request.params.arguments` record of a `call_tool`
request, restricted to the fields the google_search handlers read. A missing
property is `none`. -/
structure ToolArgs where
  q : Option Str := none
  query : Option Str := none
  gl : Option Str := none
  hl : Option Str := none
deriving DecidableEq

/-- JS `String(x)` on a possibly-undefined string value: `String(undefined)`
is the (truthy) string `"undefined"`. -/
def jsString : Option Str → Str
  | none => "undefined".data
  | some s => s

/-- The params record forwarded to `searchTools.search` by the handlers
(restricted to the three required fields). -/
structure ForwardedSearch where
  q : Str
  gl : Str
  hl : Str
deriving DecidableEq

/-- The validation error both handlers throw. -/
def requiredArgsError : Str :=
  "Search query and region code and language are required".data

/-- Embedding of the variant-1 `google_search` handler (src/index.ts lines
171-201): destructures `q`, `gl`, `hl` from the arguments, throws when any
of the three is JS-falsy, otherwise forwards `String(q)`, `String(gl)`,
`String(hl)` to the Tool Layer. -/
def handleGoogleSearchV1 (args : ToolArgs) : Except Str ForwardedSearch :=
  if !strTruthy args.q || !strTruthy args.gl || !strTruthy args.hl then
    Except.error requiredArgsError
  else Except.ok { q := jsString args.q, gl := jsString args.gl, hl := jsString args.hl }

/-- Embedding of the variant-2 `google_search` handler (src/index.ts lines
415-439): computes `q = String(arguments?.query)` — the coercion happens
BEFORE the truthiness check, so a missing `query` property yields the truthy
string `"undefined"` and only an explicitly empty `query` fails the check. -/
def handleGoogleSearchV2 (args : ToolArgs) : Except Str ForwardedSearch :=
  let qv := jsString args.query
  if qv = [] || !strTruthy args.gl || !strTruthy args.hl then
    Except.error requiredArgsError
  else Except.ok { q := qv, gl := jsString args.gl, hl := jsString args.hl }

/-- The loosely-typed argument record of a `get_prompt` request, restricted
to the properties the renderers read. A missing property is `none`. -/
structure PromptArgs where
  topic : Option Str := none
  depth : Option Str := none
  focus_areas : Option (List Str) := none
  min_sources : Option Nat := none
  claim : Option Str := none
  thoroughness : Option Str := none
  time_range : Option Str := none
  perspective : Option Str := none
  query : Option Str := none
  tech_stack : Option (List Str) := none
  content_type : Option Str := none
deriving DecidableEq

/-- A rendered prompt: the single user-role message the library produces. -/
structure PromptMessage where
  role : Str
  text : Str
deriving DecidableEq

/-- One argument descriptor of a registered prompt. -/
structure PromptArgDecl where
  name : Str
  description : Str
  required : Bool := false
deriving DecidableEq

/-- One entry of the `PROMPTS` registry. -/
structure PromptDecl where
  name : Str
  description : Str
  arguments : List PromptArgDecl := []
deriving DecidableEq

/-- The `PROMPTS` registry (src/prompts/index.ts lines 16-91): exactly four
entries; note there is no "news-analysis" key. -/
def PROMPTS : List (Str × PromptDecl) :=
  [("research-topic".data,
    { name := "research-topic".data,
      description := "Guide comprehensive research on a topic with structured results".data,
      arguments :=
        [⟨"topic".data, "Main topic to research".data, true⟩,
         ⟨"depth".data, "Research depth (basic or detailed)".data, false⟩,
         ⟨"focus_areas".data, "Specific areas to focus research on".data, false⟩] }),
   ("compare-sources".data,
    { name := "compare-sources".data,
      description := "Compare information from multiple sources on a topic".data,
      arguments :=
        [⟨"topic".data, "Topic to compare sources for".data, true⟩,
         ⟨"min_sources".data, "Minimum number of sources to compare".data, false⟩] }),
   ("fact-check".data,
    { name := "fact-check".data,
      description := "Verify a claim across multiple authoritative sources".data,
      arguments :=
        [⟨"claim".data, "Claim to verify".data, true⟩,
         ⟨"thoroughness".data, "Verification thoroughness (quick or thorough)".data, false⟩] }),
   ("technical-search".data,
    { name := "technical-search".data,
      description := "Focused technical and programming search".data,
      arguments :=
        [⟨"query".data, "Technical query to search for".data, true⟩,
         ⟨"tech_stack".data, "Relevant technologies to focus on".data, false⟩,
         ⟨"content_type".data, "Type of content (docs, tutorials, issues)".data, false⟩] })]

/-- JS object property lookup `PROMPTS[name]`. -/
def lookupPrompt (name : Str) : List (Str × PromptDecl) → Option PromptDecl
  | [] => none
  | (k, v) :: rest => if k = name then some v else lookupPrompt name rest

/-- Embedding of `SerperPrompts.listPrompts`: `Object.values(PROMPTS)`. -/
def listPrompts : List PromptDecl := PROMPTS.map Prod.snd

/-- Embedding of `getResearchTopicPrompt` (src/prompts/index.ts lines
124-144): `depth` defaults to "basic", `focus_areas` to `[]`; pure string
interpolation. -/
def getResearchTopicPrompt (args : PromptArgs) : PromptMessage :=
  let topic := jsString args.topic
  let depth := args.depth.getD "basic".data
  let focusAreas := args.focus_areas.getD []
  let focusAreasText :=
    if 0 < focusAreas.length then
      "\nFocus specifically on these areas: ".data ++ joinSep ", ".data focusAreas
    else []
  let depthText :=
    if depth = "detailed".data then
      "\nProvide detailed analysis and comprehensive coverage.".data
    else "\nProvide a basic overview and key points.".data
  { role := "user".data,
    text :=
      "Research the topic: ".data ++ topic ++ focusAreasText ++ depthText ++
        "\n\nOrganize the findings into:\n1. Overview\n2. Key Points\n3. Supporting Evidence\n4. Expert Opinions\n5. Conclusions".data }

/-- Embedding of `getCompareSourcesPrompt` (lines 146-159): `min_sources`
defaults to 3. -/
def getCompareSourcesPrompt (args : PromptArgs) : PromptMessage :=
  let topic := jsString args.topic
  let minSources := args.min_sources.getD 3
  { role := "user".data,
    text :=
      "Compare at least ".data ++ (Nat.repr minSources).data ++
        " different sources on: ".data ++ topic ++
        "\n\nAnalyze:\n1. Points of Agreement\n2. Differing Perspectives\n3. Source Credibility\n4. Supporting Evidence\n5. Synthesis of Findings".data }

/-- Embedding of `getFactCheckPrompt` (lines 161-178): `thoroughness`
defaults to "quick". -/
def getFactCheckPrompt (args : PromptArgs) : PromptMessage :=
  let claimText := jsString args.claim
  let thoroughness := args.thoroughness.getD "quick".data
  let depth :=
    if thoroughness = "thorough".data then
      "\nPerform a comprehensive fact-check using multiple authoritative sources.".data
    else "\nQuickly verify the main points using reliable sources.".data
  { role := "user".data,
    text :=
      "Fact check this claim: \"".data ++ claimText ++
        '"' :: (depth ++
          "\n\nProvide:\n1. Verification Status\n2. Supporting Evidence\n3. Authoritative Sources\n4. Context\n5. Final Assessment".data) }

/-- Embedding of `getNewsAnalysisPrompt` (lines 180-198): reachable only via
the dispatch switch, whose "news-analysis" case is dead because the registry
has no such key. -/
def getNewsAnalysisPrompt (args : PromptArgs) : PromptMessage :=
  let topic := jsString args.topic
  let timeFilter :=
    if strTruthy args.time_range then
      "\nFocus on coverage from: ".data ++ jsString args.time_range
    else []
  let perspective := args.perspective.getD "balanced".data
  let perspectiveGuide :=
    if perspective = "all".data then
      "\nInclude all viewpoints and perspectives in the analysis.".data
    else "\nFocus on balanced, factual coverage from reliable sources.".data
  { role := "user".data,
    text :=
      "Analyze news coverage of: ".data ++ topic ++ timeFilter ++ perspectiveGuide ++
        "\n\nProvide:\n1. Coverage Overview\n2. Main Narratives\n3. Different Perspectives\n4. Potential Biases\n5. Key Takeaways".data }

/-- Embedding of `getTechnicalSearchPrompt` (lines 200-220): `tech_stack`
defaults to `[]`, `content_type` to "all". -/
def getTechnicalSearchPrompt (args : PromptArgs) : PromptMessage :=
  let queryText := jsString args.query
  let techStack := args.tech_stack.getD []
  let contentType := args.content_type.getD "all".data
  let techContext :=
    if 0 < techStack.length then "\nFocus on: ".data ++ joinSep ", ".data techStack
    else []
  let contentFocus :=
    if contentType = "all".data then []
    else "\nPrioritize ".data ++ contentType ++ " in the results.".data
  { role := "user".data,
    text :=
      "Technical search for: ".data ++ queryText ++ techContext ++ contentFocus ++
        "\n\nOrganize results into:\n1. Best Practices\n2. Implementation Examples\n3. Common Issues\n4. Documentation References\n5. Community Insights".data }

/-- Embedding of `SerperPrompts.getPrompt` (src/prompts/index.ts lines
102-122): registry lookup first — an unregistered name (including
"news-analysis") fails with `Prompt not found: <name>` before the dispatch
switch is reached; the switch then dispatches on the name, in source order. -/
def getPrompt (name : Str) (args : PromptArgs) : Except Str PromptMessage :=
  match lookupPrompt name PROMPTS with
  | none => Except.error ("Prompt not found: ".data ++ name)
  | some _ =>
    if name = "research-topic".data then Except.ok (getResearchTopicPrompt args)
    else if name = "compare-sources".data then Except.ok (getCompareSourcesPrompt args)
    else if name = "fact-check".data then Except.ok (getFactCheckPrompt args)
    else if name = "news-analysis".data then Except.ok (getNewsAnalysisPrompt args)
    else if name = "technical-search".data then Except.ok (getTechnicalSearchPrompt args)
    else Except.error "Prompt implementation not found".data

/-- A whitespace-normalized optional operator value: absent, or a value with
no leading/trailing whitespace and no two consecutive whitespace characters. -/
def optNormB : Option Str → Bool
  | none => true
  | some v => wsNormB v

/-- Every comma-separated term of the optional value is nonempty after
trimming (the condition under which the rendered OR-group stays free of
double spaces). -/
def orTermsB : Option Str → Bool
  | none => true
  | some v => (splitComma v).all (fun t => !(trimChars t).isEmpty)

/-- No operator field of the params record is present (JS-truthy). -/
def noOps (p : SearchParams) : Prop :=
  strTruthy p.site = false ∧ strTruthy p.filetype = false ∧
    strTruthy p.inurl = false ∧ strTruthy p.intitle = false ∧
    strTruthy p.related = false ∧ strTruthy p.cache = false ∧
    strTruthy p.before = false ∧ strTruthy p.after = false ∧
    strTruthy p.exact = false ∧ strTruthy p.exclude = false ∧
    strTruthy p.or = false

instance (p : SearchParams) : Decidable (noOps p) := by
  unfold noOps; infer_instance

/-- Shape invariant of one rendered operator token: empty, or a single
leading space followed by a nonempty normalized word. -/
def tokOK (t : Str) : Prop :=
  t = [] ∨
    ∃ w, t = ' ' :: w ∧ w ≠ [] ∧ noTwoWS w = true ∧ startsNonWS w = true ∧
      endsNonWS w = true

/-- Specification-side rendering of spec section 4.1 items 2-9: the single
part `name:<value>` if the field is present, nothing if it is absent or
empty. -/
def renderOpt (pre : Str) (o : Option Str) : List Str :=
  match o with
  | none => []
  | some v => if v = [] then [] else [pre ++ v]

/-- Specification-side rendering of spec section 4.1 item 10: the part
`"<exact>"`, the phrase quoted verbatim, if present. -/
def renderExact : Option Str → List Str
  | none => []
  | some v => if v = [] then [] else ['"' :: (v ++ ['"'])]

/-- Specification-side rendering of spec section 4.1 item 11: one part
`-<term>` for each comma-separated term of `exclude`, each term trimmed. -/
def renderExclude : Option Str → List Str
  | none => []
  | some v =>
    if v = [] then [] else (splitComma v).map (fun t => '-' :: trimChars t)

/-- Specification-side rendering of spec section 4.1 item 12: the part
`(<term1> OR <term2> OR ...)` over the comma-split, trimmed terms of `or`,
if present. -/
def renderOr : Option Str → List Str
  | none => []
  | some v =>
    if v = [] then []
    else ['(' :: (joinSep " OR ".data ((splitComma v).map trimChars) ++ [')'])]

/-- The query string as the words of spec section 4.1 describe it: the
whitespace-normalized base query and the rendered parts of exactly the
present operator fields, concatenated in the fixed order site, filetype,
inurl, intitle, related, cache, before, after, exact, exclude, or, separated
by single spaces; an absent or empty field contributes nothing, and the
result is trimmed so an empty or whitespace-only base yields no leading
space (and an empty string when no operator is present). Defined here as
the specification side of the C1 refinement, to be compared with the
source-side `buildAdvancedQuery`. -/
def buildQuerySpec (p : SearchParams) : Str :=
  trimChars (joinSep [' ']
    (collapseWS (trimChars p.q) ::
      (renderOpt "site:".data p.site ++ renderOpt "filetype:".data p.filetype ++
        renderOpt "inurl:".data p.inurl ++ renderOpt "intitle:".data p.intitle ++
        renderOpt "related:".data p.related ++ renderOpt "cache:".data p.cache ++
        renderOpt "before:".data p.before ++ renderOpt "after:".data p.after ++
        renderExact p.exact ++ renderExclude p.exclude ++ renderOr p.or)))

example : buildAdvancedQuery { q := "test query".data } = "test query".data := by decide

example :
    buildAdvancedQuery { q := "test query".data, site := some "example.com".data } =
      "test query site:example.com".data := by decide

example :
    buildAdvancedQuery { q := "test".data, exact := some "exact phrase".data } =
      "test \"exact phrase\"".data := by decide

example :
    buildAdvancedQuery { q := "test".data, exclude := some "spam,unwanted".data } =
      "test -spam -unwanted".data := by decide

example :
    buildAdvancedQuery { q := "test".data, or := some "option1,option2".data } =
      "test (option1 OR option2)".data := by decide

example : buildAdvancedQuery { q := "".data } = "".data := by decide

example : buildAdvancedQuery { q := "   ".data } = "".data := by decide

example :
    buildAdvancedQuery { q := "test    query".data, site := some "example.com".data } =
      "test query site:example.com".data := by decide

example :
    buildAdvancedQuery
        { q := "search term".data, site := some "github.com".data,
          filetype := some "pdf".data, inurl := some "docs".data,
          intitle := some "guide".data, before := some "2024-01-01".data,
          after := some "2023-01-01".data, exclude := some "draft".data,
          or := some "tutorial,documentation".data } =
      ("search term site:github.com filetype:pdf inurl:docs intitle:guide " ++
        "before:2024-01-01 after:2023-01-01 -draft (tutorial OR documentation)").data := by
  decide

theorem startsNonWS_dropWhile (l : Str) : startsNonWS (l.dropWhile isWS) = true := by
  induction l with
  | nil => rfl
  | cons c cs ih =>
    simp only [List.dropWhile]
    by_cases h : isWS c = true
    · simpa [h] using ih
    · simp [h, startsNonWS]

theorem startsNonWS_append (a b : Str) :
    startsNonWS (a ++ b) = if a = [] then startsNonWS b else startsNonWS a := by
  cases a with
  | nil => simp
  | cons c cs => simp [startsNonWS]

theorem startsNonWS_reverse (l : Str) : startsNonWS l.reverse = endsNonWS l := by
  induction l with
  | nil => rfl
  | cons c cs ih =>
    cases cs with
    | nil => simp [startsNonWS, endsNonWS]
    | cons d ds =>
      rw [List.reverse_cons, startsNonWS_append]
      simp only [List.reverse_eq_nil_iff, List.cons_ne_nil, if_false]
      rw [ih]
      rfl

theorem endsNonWS_reverse (l : Str) : endsNonWS l.reverse = startsNonWS l := by
  have h := startsNonWS_reverse l.reverse
  rw [List.reverse_reverse] at h
  exact h.symm

theorem endsNonWS_cons (c : Char) (l : Str) :
    endsNonWS (c :: l) = if l = [] then !isWS c else endsNonWS l := by
  cases l with
  | nil => rfl
  | cons d ds => rfl

theorem endsNonWS_dropWhile (l : Str) (h : endsNonWS l = true) :
    endsNonWS (l.dropWhile isWS) = true := by
  induction l with
  | nil => rfl
  | cons c cs ih =>
    simp only [List.dropWhile]
    by_cases hc : isWS c = true
    · simp only [hc, if_true]
      cases cs with
      | nil => rfl
      | cons d ds =>
        apply ih
        rw [endsNonWS_cons] at h
        simpa using h
    · simpa [hc] using h

theorem dropWhile_eq_self_of_startsNonWS (l : Str) (h : startsNonWS l = true) :
    l.dropWhile isWS = l := by
  cases l with
  | nil => rfl
  | cons c cs =>
    simp only [startsNonWS, Bool.not_eq_true'] at h
    simp [List.dropWhile, h]

theorem startsNonWS_trimChars (l : Str) : startsNonWS (trimChars l) = true := by
  unfold trimChars
  rw [startsNonWS_reverse]
  apply endsNonWS_dropWhile
  rw [endsNonWS_reverse]
  exact startsNonWS_dropWhile l

theorem endsNonWS_trimChars (l : Str) : endsNonWS (trimChars l) = true := by
  unfold trimChars
  rw [endsNonWS_reverse]
  exact startsNonWS_dropWhile _

theorem trimChars_eq_self (l : Str) (h1 : startsNonWS l = true)
    (h2 : endsNonWS l = true) : trimChars l = l := by
  unfold trimChars
  rw [dropWhile_eq_self_of_startsNonWS l h1]
  rw [dropWhile_eq_self_of_startsNonWS l.reverse (by rw [startsNonWS_reverse]; exact h2)]
  exact l.reverse_reverse

theorem noTwoWS_cons (c : Char) (l : Str) :
    noTwoWS (c :: l) = (noTwoWS l && (!isWS c || startsNonWS l)) := by
  cases l with
  | nil => simp [noTwoWS, startsNonWS]
  | cons d ds =>
    simp only [noTwoWS, startsNonWS]
    cases h1 : isWS c <;> cases h2 : isWS d <;> simp [Bool.and_comm]

theorem endsNonWS_append (a b : Str) :
    endsNonWS (a ++ b) = if b = [] then endsNonWS a else endsNonWS b := by
  induction a with
  | nil =>
    cases b with
    | nil => rfl
    | cons d ds => simp
  | cons c cs ih =>
    rw [List.cons_append, endsNonWS_cons, ih, endsNonWS_cons]
    by_cases hb : b = [] <;> by_cases hcs : cs = [] <;> simp [hb, hcs]

theorem noTwoWS_append (a b : Str) :
    noTwoWS (a ++ b) =
      (noTwoWS a && noTwoWS b && (endsNonWS a || startsNonWS b)) := by
  induction a with
  | nil => simp [noTwoWS, endsNonWS]
  | cons c cs ih =>
    rw [List.cons_append, noTwoWS_cons, ih, noTwoWS_cons c cs,
      startsNonWS_append, endsNonWS_cons]
    by_cases hcs : cs = []
    · subst hcs
      simp only [List.nil_append, if_true, noTwoWS, startsNonWS, Bool.true_and]
      refine Bool.eq_iff_iff.mpr ?_
      simp only [Bool.and_eq_true, Bool.or_eq_true]
      tauto
    · rw [if_neg hcs, if_neg hcs]
      refine Bool.eq_iff_iff.mpr ?_
      simp only [Bool.and_eq_true, Bool.or_eq_true]
      tauto

theorem noTwoWS_tail (c : Char) (l : Str) (h : noTwoWS (c :: l) = true) :
    noTwoWS l = true := by
  rw [noTwoWS_cons] at h
  simp only [Bool.and_eq_true] at h
  exact h.1

theorem noTwoWS_dropWhile (l : Str) (h : noTwoWS l = true) :
    noTwoWS (l.dropWhile isWS) = true := by
  induction l with
  | nil => rfl
  | cons c cs ih =>
    simp only [List.dropWhile]
    by_cases hc : isWS c = true
    · simp only [hc, if_true]
      exact ih (noTwoWS_tail c cs h)
    · simpa [hc] using h

theorem noTwoWS_reverse (l : Str) : noTwoWS l.reverse = noTwoWS l := by
  induction l with
  | nil => rfl
  | cons c cs ih =>
    rw [List.reverse_cons, noTwoWS_append, ih, endsNonWS_reverse, noTwoWS_cons c cs]
    have h1 : noTwoWS [c] = true := rfl
    have h2 : startsNonWS [c] = !isWS c := rfl
    rw [h1, h2, Bool.and_true, Bool.or_comm]

theorem noTwoWS_trimChars (l : Str) (h : noTwoWS l = true) :
    noTwoWS (trimChars l) = true := by
  unfold trimChars
  rw [noTwoWS_reverse]
  apply noTwoWS_dropWhile
  rw [noTwoWS_reverse]
  exact noTwoWS_dropWhile l h

theorem collapseWS_ne_nil (l : Str) (h : l ≠ []) : collapseWS l ≠ [] := by
  induction l with
  | nil => exact absurd rfl h
  | cons c cs ih =>
    simp only [collapseWS]
    by_cases hc : isWS c = true
    · rw [if_pos hc]
      cases cs with
      | nil => simp
      | cons d ds =>
        by_cases hd : isWS d = true
        · simpa [hd] using ih (by simp)
        · simp [hd]
    · simp [hc]

theorem startsNonWS_collapseWS (l : Str) (h : startsNonWS l = true) :
    startsNonWS (collapseWS l) = true := by
  cases l with
  | nil => rfl
  | cons c cs =>
    simp only [startsNonWS, Bool.not_eq_true'] at h
    simp [collapseWS, h, startsNonWS]

theorem noTwoWS_collapseWS (l : Str) : noTwoWS (collapseWS l) = true := by
  induction l with
  | nil => rfl
  | cons c cs ih =>
    simp only [collapseWS]
    by_cases hc : isWS c = true
    · rw [if_pos hc]
      cases cs with
      | nil => rfl
      | cons d ds =>
        by_cases hd : isWS d = true
        · simpa [hd] using ih
        · simp only [hd, Bool.false_eq_true, if_false]
          rw [noTwoWS_cons]
          have hs : startsNonWS (collapseWS (d :: ds)) = true :=
            startsNonWS_collapseWS _ (by simp [startsNonWS, hd])
          simp [ih, hs]
    · rw [if_neg hc, noTwoWS_cons]
      simp [ih, hc]

theorem endsNonWS_collapseWS (l : Str) (h : endsNonWS l = true) :
    endsNonWS (collapseWS l) = true := by
  induction l with
  | nil => rfl
  | cons c cs ih =>
    simp only [collapseWS]
    by_cases hc : isWS c = true
    · rw [if_pos hc]
      cases cs with
      | nil =>
        rw [endsNonWS_cons] at h
        simp [hc] at h
      | cons d ds =>
        rw [endsNonWS_cons] at h
        simp only [List.cons_ne_nil, if_false] at h
        by_cases hd : isWS d = true
        · simpa [hd] using ih h
        · simp only [hd, Bool.false_eq_true, if_false]
          rw [endsNonWS_cons,
            if_neg (collapseWS_ne_nil (d :: ds) (List.cons_ne_nil d ds))]
          exact ih h
    · rw [if_neg hc, endsNonWS_cons]
      cases cs with
      | nil => simpa [collapseWS, endsNonWS] using h
      | cons d ds =>
        rw [if_neg (collapseWS_ne_nil (d :: ds) (List.cons_ne_nil d ds))]
        rw [endsNonWS_cons] at h
        simp only [List.cons_ne_nil, if_false] at h
        exact ih h

theorem splitComma_ne_nil (l : Str) : splitComma l ≠ [] := by
  cases l with
  | nil => simp [splitComma]
  | cons c cs =>
    simp only [splitComma]
    by_cases hc : c = ','
    · simp [hc]
    · rw [if_neg hc]
      cases h : splitComma cs with
      | nil => simp
      | cons t ts => simp

theorem splitComma_head (l : Str) (t : Str) (ts : List Str)
    (h : splitComma l = t :: ts) : t = [] ∨ t.head? = l.head? := by
  cases l with
  | nil =>
    simp only [splitComma] at h
    injection h with h1 h2
    exact Or.inl h1.symm
  | cons c cs =>
    simp only [splitComma] at h
    by_cases hc : c = ','
    · rw [if_pos hc] at h
      injection h with h1 h2
      exact Or.inl h1.symm
    · rw [if_neg hc] at h
      cases h2 : splitComma cs with
      | nil => exact absurd h2 (splitComma_ne_nil cs)
      | cons u us =>
        simp only [h2] at h
        injection h with h1 h3
        right
        rw [← h1]
        rfl

theorem noTwoWS_splitComma (l : Str) (h : noTwoWS l = true) :
    ∀ t ∈ splitComma l, noTwoWS t = true := by
  induction l with
  | nil =>
    intro t ht
    simp only [splitComma, List.mem_singleton] at ht
    subst ht; rfl
  | cons c cs ih =>
    have hcs : noTwoWS cs = true := noTwoWS_tail c cs h
    intro t ht
    simp only [splitComma] at ht
    by_cases hc : c = ','
    · rw [if_pos hc] at ht
      rcases List.mem_cons.mp ht with h1 | h1
      · subst h1; rfl
      · exact ih hcs t h1
    · rw [if_neg hc] at ht
      cases h2 : splitComma cs with
      | nil => exact absurd h2 (splitComma_ne_nil cs)
      | cons u us =>
        simp only [h2] at ht
        rcases List.mem_cons.mp ht with h1 | h1
        · subst h1
          rw [noTwoWS_cons]
          have hu : noTwoWS u = true :=
            ih hcs u (by rw [h2]; exact List.mem_cons_self u us)
          cases u with
          | nil => simp [hu, startsNonWS]
          | cons e es =>
            rcases splitComma_head cs (e :: es) us h2 with he | hh
            · exact absurd he (List.cons_ne_nil e es)
            · cases cs with
              | nil =>
                simp only [splitComma] at h2
                injection h2 with h3 h4
                exact absurd h3.symm (List.cons_ne_nil e es)
              | cons d ds =>
                have hed : e = d := by
                  simp only [List.head?] at hh
                  injection hh
                subst hed
                simp only [noTwoWS, Bool.and_eq_true] at h
                simp only [hu, startsNonWS, Bool.true_and]
                simpa [Bool.not_and] using h.1
        · exact ih hcs t (by rw [h2]; exact List.mem_cons_of_mem u h1)

theorem wsNormB_eq (l : Str) :
    wsNormB l = true ↔
      (noTwoWS l = true ∧ startsNonWS l = true ∧ endsNonWS l = true) := by
  simp [wsNormB, Bool.and_eq_true, and_assoc]

theorem isWS_dash : isWS '-' = false := by decide

theorem isWS_quote : isWS '"' = false := by decide

theorem isWS_lparen : isWS '(' = false := by decide

theorem isWS_rparen : isWS ')' = false := by decide

theorem simpleTok_tokOK (nm : Str) (o : Option Str) (hnm : wsNormB nm = true)
    (hne : nm ≠ []) (ho : optNormB o = true) :
    tokOK (simpleTok (' ' :: nm) o) := by
  cases o with
  | none => exact Or.inl rfl
  | some v =>
    obtain ⟨hn1, hn2, hn3⟩ := (wsNormB_eq nm).mp hnm
    by_cases hv : v = []
    · exact Or.inl (by simp [simpleTok, hv])
    · simp only [optNormB] at ho
      obtain ⟨hv1, hv2, hv3⟩ := (wsNormB_eq v).mp ho
      right
      refine ⟨nm ++ v, by simp [simpleTok, hv], by simp [hne], ?_, ?_, ?_⟩
      · rw [noTwoWS_append, hn1, hv1, hn3]
        simp
      · rw [startsNonWS_append, if_neg hne]
        exact hn2
      · rw [endsNonWS_append, if_neg hv]
        exact hv3

theorem exactTok_tokOK (o : Option Str) (ho : optNormB o = true) :
    tokOK (exactTok o) := by
  cases o with
  | none => exact Or.inl rfl
  | some v =>
    by_cases hv : v = []
    · exact Or.inl (by simp [exactTok, hv])
    · simp only [optNormB] at ho
      obtain ⟨hv1, hv2, hv3⟩ := (wsNormB_eq v).mp ho
      right
      refine ⟨'"' :: (v ++ ['"']), by simp [exactTok, hv], by simp, ?_, ?_, ?_⟩
      · rw [noTwoWS_cons, noTwoWS_append, hv1]
        simp [isWS_quote, startsNonWS, noTwoWS]
      · simp [startsNonWS, isWS_quote]
      · rw [endsNonWS_cons, if_neg (by simp : ¬(v ++ ['"'] = [])), endsNonWS_append]
        simp [endsNonWS, isWS_quote]

theorem excludeChunks_tokOK (ps : List Str) (hp : ∀ p ∈ ps, noTwoWS p = true)
    (hne : ps ≠ []) :
    ∃ w, (ps.map (fun t => ' ' :: '-' :: trimChars t)).flatten = ' ' :: w ∧
      w ≠ [] ∧ noTwoWS w = true ∧ startsNonWS w = true ∧ endsNonWS w = true := by
  induction ps with
  | nil => exact absurd rfl hne
  | cons p rest ih =>
    cases rest with
    | nil =>
      refine ⟨'-' :: trimChars p, by simp, by simp, ?_, ?_, ?_⟩
      · rw [noTwoWS_cons]
        have h1 : noTwoWS (trimChars p) = true :=
          noTwoWS_trimChars p (hp p (List.mem_singleton.mpr rfl))
        simp [h1, isWS_dash]
      · simp [startsNonWS, isWS_dash]
      · rw [endsNonWS_cons]
        by_cases h : trimChars p = []
        · simp [h, isWS_dash]
        · rw [if_neg h]
          exact endsNonWS_trimChars p
    | cons p2 rest2 =>
      obtain ⟨w2, hw2eq, hw2ne, hw21, hw22, hw23⟩ :=
        ih (fun x hx => hp x (List.mem_cons_of_mem p hx)) (by simp)
      refine ⟨'-' :: (trimChars p ++ ' ' :: w2), ?_, by simp, ?_, ?_, ?_⟩
      · rw [List.map_cons, List.flatten_cons, hw2eq]
        simp
      · rw [noTwoWS_cons, noTwoWS_append]
        have h1 : noTwoWS (trimChars p) = true :=
          noTwoWS_trimChars p (hp p (List.mem_cons_self p _))
        rw [h1, noTwoWS_cons, hw21, hw22, endsNonWS_trimChars p]
        simp [isWS_dash]
      · simp [startsNonWS, isWS_dash]
      · rw [endsNonWS_cons, if_neg (by simp : ¬(trimChars p ++ ' ' :: w2 = [])),
          endsNonWS_append, if_neg (List.cons_ne_nil ' ' w2), endsNonWS_cons,
          if_neg hw2ne]
        exact hw23

theorem excludeTok_tokOK (o : Option Str) (ho : optNormB o = true) :
    tokOK (excludeTok o) := by
  cases o with
  | none => exact Or.inl rfl
  | some v =>
    by_cases hv : v = []
    · exact Or.inl (by simp [excludeTok, hv])
    · simp only [optNormB] at ho
      obtain ⟨hv1, -, -⟩ := (wsNormB_eq v).mp ho
      obtain ⟨w, hw, hwne, h1, h2, h3⟩ :=
        excludeChunks_tokOK (splitComma v) (noTwoWS_splitComma v hv1)
          (splitComma_ne_nil v)
      right
      exact ⟨w, by simp [excludeTok, hv, hw], hwne, h1, h2, h3⟩

theorem noTwoWS_ORsep : noTwoWS " OR ".data = true := by decide

theorem joinSep_OR_props (ps : List Str)
    (hp : ∀ p ∈ ps, noTwoWS p = true ∧ startsNonWS p = true ∧
      endsNonWS p = true ∧ p ≠ [])
    (hne : ps ≠ []) :
    noTwoWS (joinSep " OR ".data ps) = true ∧
      startsNonWS (joinSep " OR ".data ps) = true ∧
      endsNonWS (joinSep " OR ".data ps) = true ∧
      joinSep " OR ".data ps ≠ [] := by
  induction ps with
  | nil => exact absurd rfl hne
  | cons p rest ih =>
    cases rest with
    | nil => exact hp p (List.mem_singleton.mpr rfl)
    | cons p2 rest2 =>
      obtain ⟨j1, j2, j3, j4⟩ :=
        ih (fun x hx => hp x (List.mem_cons_of_mem p hx)) (by simp)
      obtain ⟨h1, h2, h3, h4⟩ := hp p (List.mem_cons_self p _)
      have hps : joinSep " OR ".data (p :: p2 :: rest2) =
          p ++ " OR ".data ++ joinSep " OR ".data (p2 :: rest2) := rfl
      rw [hps]
      have hpsep : noTwoWS (p ++ " OR ".data) = true := by
        rw [noTwoWS_append, h1, h3, noTwoWS_ORsep]
        simp
      have hpsepne : ¬(p ++ " OR ".data = []) := by simp
      refine ⟨?_, ?_, ?_, ?_⟩
      · rw [noTwoWS_append, hpsep, j1, j2]
        simp
      · rw [startsNonWS_append, if_neg hpsepne, startsNonWS_append, if_neg h4]
        exact h2
      · rw [endsNonWS_append, if_neg j4]
        exact j3
      · simp [List.append_eq_nil, h4]

theorem orTok_tokOK (o : Option Str) (ho : optNormB o = true)
    (hterms : orTermsB o = true) : tokOK (orTok o) := by
  cases o with
  | none => exact Or.inl rfl
  | some v =>
    by_cases hv : v = []
    · exact Or.inl (by simp [orTok, hv])
    · simp only [optNormB] at ho
      obtain ⟨hv1, -, -⟩ := (wsNormB_eq v).mp ho
      have hps : ∀ p ∈ (splitComma v).map trimChars,
          noTwoWS p = true ∧ startsNonWS p = true ∧ endsNonWS p = true ∧
            p ≠ [] := by
        intro p hpmem
        obtain ⟨t, ht, rfl⟩ := List.mem_map.mp hpmem
        refine ⟨noTwoWS_trimChars t (noTwoWS_splitComma v hv1 t ht),
          startsNonWS_trimChars t, endsNonWS_trimChars t, ?_⟩
        simp only [orTermsB, List.all_eq_true] at hterms
        have h2 := hterms t ht
        simpa using h2
      have hmapne : (splitComma v).map trimChars ≠ [] := by
        intro hmap
        exact splitComma_ne_nil v (List.map_eq_nil_iff.mp hmap)
      obtain ⟨j1, j2, j3, j4⟩ := joinSep_OR_props _ hps hmapne
      right
      refine ⟨'(' :: (joinSep " OR ".data ((splitComma v).map trimChars) ++ [')']),
        by simp [orTok, hv], by simp, ?_, ?_, ?_⟩
      · rw [noTwoWS_cons, noTwoWS_append, j1]
        simp [isWS_lparen, isWS_rparen, startsNonWS, noTwoWS]
      · simp [startsNonWS, isWS_lparen]
      · rw [endsNonWS_cons, if_neg (by simp : ¬(joinSep " OR ".data
          ((splitComma v).map trimChars) ++ [')'] = [])), endsNonWS_append]
        simp [endsNonWS, isWS_rparen]

theorem accumStep (Q t : Str) (h1 : noTwoWS Q = true) (h2 : endsNonWS Q = true)
    (ht : tokOK t) : noTwoWS (Q ++ t) = true ∧ endsNonWS (Q ++ t) = true := by
  rcases ht with rfl | ⟨w, rfl, hwne, hw1, hw2, hw3⟩
  · simpa using ⟨h1, h2⟩
  · constructor
    · rw [noTwoWS_append, h1, h2, noTwoWS_cons, hw1, hw2]
      simp
    · rw [endsNonWS_append, if_neg (List.cons_ne_nil ' ' w), endsNonWS_cons,
        if_neg hwne]
      exact hw3

theorem simpleTok_of_falsy (pre : Str) (o : Option Str)
    (h : strTruthy o = false) : simpleTok pre o = [] := by
  cases o with
  | none => rfl
  | some v =>
    simp only [strTruthy, Bool.not_eq_false', List.isEmpty_iff] at h
    simp [simpleTok, h]

theorem exactTok_of_falsy (o : Option Str) (h : strTruthy o = false) :
    exactTok o = [] := by
  cases o with
  | none => rfl
  | some v =>
    simp only [strTruthy, Bool.not_eq_false', List.isEmpty_iff] at h
    simp [exactTok, h]

theorem excludeTok_of_falsy (o : Option Str) (h : strTruthy o = false) :
    excludeTok o = [] := by
  cases o with
  | none => rfl
  | some v =>
    simp only [strTruthy, Bool.not_eq_false', List.isEmpty_iff] at h
    simp [excludeTok, h]

theorem orTok_of_falsy (o : Option Str) (h : strTruthy o = false) :
    orTok o = [] := by
  cases o with
  | none => rfl
  | some v =>
    simp only [strTruthy, Bool.not_eq_false', List.isEmpty_iff] at h
    simp [orTok, h]

/-- C2 (amended): the query builder is a total function; its result never
has leading or trailing whitespace; when the base query is empty or
whitespace-only and no operator field is present the result is the empty
string; and the result has no two consecutive whitespace characters
provided every present operator field value is itself whitespace-normalized
and every comma-separated term of the `or` field is nonempty after trimming
(operator values are interpolated verbatim, so without that proviso a value
containing two adjacent spaces defeats the no-double-space guarantee, as the
counterexample shows). -/
theorem C2_buildAdvancedQuery_normalized (p : SearchParams) :
    startsNonWS (buildAdvancedQuery p) = true ∧
    endsNonWS (buildAdvancedQuery p) = true ∧
    (optNormB p.site = true → optNormB p.filetype = true →
      optNormB p.inurl = true → optNormB p.intitle = true →
      optNormB p.related = true → optNormB p.cache = true →
      optNormB p.before = true → optNormB p.after = true →
      optNormB p.exact = true → optNormB p.exclude = true →
      optNormB p.or = true → orTermsB p.or = true →
      wsNormB (buildAdvancedQuery p) = true) ∧
    (trimChars p.q = [] → noOps p → buildAdvancedQuery p = []) := by
  have heq : buildAdvancedQuery p =
      trimChars
        (collapseWS (trimChars p.q) ++ simpleTok (' ' :: "site:".data) p.site ++
          simpleTok (' ' :: "filetype:".data) p.filetype ++
          simpleTok (' ' :: "inurl:".data) p.inurl ++
          simpleTok (' ' :: "intitle:".data) p.intitle ++
          simpleTok (' ' :: "related:".data) p.related ++
          simpleTok (' ' :: "cache:".data) p.cache ++
          simpleTok (' ' :: "before:".data) p.before ++
          simpleTok (' ' :: "after:".data) p.after ++
          exactTok p.exact ++ excludeTok p.exclude ++ orTok p.or) := rfl
  refine ⟨?_, ?_, ?_, ?_⟩
  · rw [heq]; exact startsNonWS_trimChars _
  · rw [heq]; exact endsNonWS_trimChars _
  · intro h1 h2 h3 h4 h5 h6 h7 h8 h9 h10 h11 h12
    rw [heq]
    refine (wsNormB_eq _).mpr ⟨?_, startsNonWS_trimChars _, endsNonWS_trimChars _⟩
    apply noTwoWS_trimChars
    have s0 : noTwoWS (collapseWS (trimChars p.q)) = true ∧
        endsNonWS (collapseWS (trimChars p.q)) = true :=
      ⟨noTwoWS_collapseWS _, endsNonWS_collapseWS _ (endsNonWS_trimChars _)⟩
    have s1 := accumStep _ _ s0.1 s0.2
      (simpleTok_tokOK "site:".data p.site (by decide) (by decide) h1)
    have s2 := accumStep _ _ s1.1 s1.2
      (simpleTok_tokOK "filetype:".data p.filetype (by decide) (by decide) h2)
    have s3 := accumStep _ _ s2.1 s2.2
      (simpleTok_tokOK "inurl:".data p.inurl (by decide) (by decide) h3)
    have s4 := accumStep _ _ s3.1 s3.2
      (simpleTok_tokOK "intitle:".data p.intitle (by decide) (by decide) h4)
    have s5 := accumStep _ _ s4.1 s4.2
      (simpleTok_tokOK "related:".data p.related (by decide) (by decide) h5)
    have s6 := accumStep _ _ s5.1 s5.2
      (simpleTok_tokOK "cache:".data p.cache (by decide) (by decide) h6)
    have s7 := accumStep _ _ s6.1 s6.2
      (simpleTok_tokOK "before:".data p.before (by decide) (by decide) h7)
    have s8 := accumStep _ _ s7.1 s7.2
      (simpleTok_tokOK "after:".data p.after (by decide) (by decide) h8)
    have s9 := accumStep _ _ s8.1 s8.2 (exactTok_tokOK p.exact h9)
    have s10 := accumStep _ _ s9.1 s9.2 (excludeTok_tokOK p.exclude h10)
    have s11 := accumStep _ _ s10.1 s10.2 (orTok_tokOK p.or h11 h12)
    exact s11.1
  · intro hq hops
    obtain ⟨o1, o2, o3, o4, o5, o6, o7, o8, o9, o10, o11⟩ := hops
    rw [heq, hq, simpleTok_of_falsy _ _ o1, simpleTok_of_falsy _ _ o2,
      simpleTok_of_falsy _ _ o3, simpleTok_of_falsy _ _ o4,
      simpleTok_of_falsy _ _ o5, simpleTok_of_falsy _ _ o6,
      simpleTok_of_falsy _ _ o7, simpleTok_of_falsy _ _ o8,
      exactTok_of_falsy _ o9, excludeTok_of_falsy _ o10, orTok_of_falsy _ o11]
    rfl

/-- C2 (counterexample to the claim as stated): for the well-typed record
with base query "test" and site value "a  b" (two adjacent spaces) the
builder returns "test site:a  b", which contains two consecutive space
characters — the claimed no-double-space property fails on this input. -/
theorem C2_counterexample :
    buildAdvancedQuery { q := "test".data, site := some "a  b".data } =
      "test site:a  b".data ∧
    noTwoWS (buildAdvancedQuery { q := "test".data, site := some "a  b".data }) =
      false := by
  constructor <;> decide

/-- C2 witness: the amended theorem applied at concrete inputs — a fully
populated normalized record yields a whitespace-normalized result, and a
whitespace-only base query with no operators yields the empty string. -/
theorem C2_witness :
    wsNormB (buildAdvancedQuery
      { q := "rust  book ".data,
        site := some "doc.rust-lang.org".data,
        exact := some "borrow checker".data,
        exclude := some "beginner,basic".data,
        or := some "tutorial,guide".data }) = true ∧
    buildAdvancedQuery { q := "   ".data } = [] := by
  constructor
  · exact (C2_buildAdvancedQuery_normalized _).2.2.1 (by decide) (by decide)
      (by decide) (by decide) (by decide) (by decide) (by decide) (by decide)
      (by decide) (by decide) (by decide) (by decide)
  · exact (C2_buildAdvancedQuery_normalized _).2.2.2 (by decide) (by decide)

theorem joinSep_space_eq (x : Str) (xs : List Str) :
    joinSep [' '] (x :: xs) = x ++ (xs.map (fun t => ' ' :: t)).flatten := by
  induction xs generalizing x with
  | nil => simp [joinSep]
  | cons y ts ih =>
    rw [joinSep, ih y]
    simp [List.append_assoc]

theorem simpleTok_eq_render (nm : Str) (o : Option Str) :
    simpleTok (' ' :: nm) o = ((renderOpt nm o).map (fun t => ' ' :: t)).flatten := by
  cases o with
  | none => rfl
  | some v => by_cases hv : v = [] <;> simp [simpleTok, renderOpt, hv]

theorem exactTok_eq_render (o : Option Str) :
    exactTok o = ((renderExact o).map (fun t => ' ' :: t)).flatten := by
  cases o with
  | none => rfl
  | some v => by_cases hv : v = [] <;> simp [exactTok, renderExact, hv]

theorem excludeTok_eq_render (o : Option Str) :
    excludeTok o = ((renderExclude o).map (fun t => ' ' :: t)).flatten := by
  cases o with
  | none => rfl
  | some v =>
    by_cases hv : v = [] <;>
      simp [excludeTok, renderExclude, hv, List.map_map, Function.comp_def]

theorem orTok_eq_render (o : Option Str) :
    orTok o = ((renderOr o).map (fun t => ' ' :: t)).flatten := by
  cases o with
  | none => rfl
  | some v => by_cases hv : v = [] <;> simp [orTok, renderOr, hv]

/-- C1: for every params record — whichever subset of the advanced operator
fields is present — the builder output equals the specification-side
rendering `buildQuerySpec`: the whitespace-normalized base query followed by
the rendered parts of exactly the present operators, joined by single
spaces in the fixed order site, filetype, inurl, intitle, related, cache,
before, after, exact (quoted), exclude terms, or-group, and trimmed. In the
record embedding the input carries no field order, so the output order is
the same however the record was written down. -/
theorem C1_operator_order (p : SearchParams) :
    buildAdvancedQuery p = buildQuerySpec p := by
  have heq : buildAdvancedQuery p =
      trimChars
        (collapseWS (trimChars p.q) ++ simpleTok (' ' :: "site:".data) p.site ++
          simpleTok (' ' :: "filetype:".data) p.filetype ++
          simpleTok (' ' :: "inurl:".data) p.inurl ++
          simpleTok (' ' :: "intitle:".data) p.intitle ++
          simpleTok (' ' :: "related:".data) p.related ++
          simpleTok (' ' :: "cache:".data) p.cache ++
          simpleTok (' ' :: "before:".data) p.before ++
          simpleTok (' ' :: "after:".data) p.after ++
          exactTok p.exact ++ excludeTok p.exclude ++ orTok p.or) := rfl
  rw [heq, buildQuerySpec, joinSep_space_eq,
    simpleTok_eq_render "site:".data p.site,
    simpleTok_eq_render "filetype:".data p.filetype,
    simpleTok_eq_render "inurl:".data p.inurl,
    simpleTok_eq_render "intitle:".data p.intitle,
    simpleTok_eq_render "related:".data p.related,
    simpleTok_eq_render "cache:".data p.cache,
    simpleTok_eq_render "before:".data p.before,
    simpleTok_eq_render "after:".data p.after,
    exactTok_eq_render p.exact, excludeTok_eq_render p.exclude,
    orTok_eq_render p.or]
  simp [List.map_append, List.flatten_append, List.append_assoc]

example :
    buildQuerySpec
        { q := "test".data, site := some "example.com".data,
          or := some "tutorial,guide".data } =
      "test site:example.com (tutorial OR guide)".data := by decide

example :
    buildQuerySpec { q := "test".data, filetype := some "pdf".data } =
      "test filetype:pdf".data := by decide

example :
    buildQuerySpec
        { q := "search term".data, site := some "github.com".data,
          filetype := some "pdf".data, inurl := some "docs".data,
          intitle := some "guide".data, before := some "2024-01-01".data,
          after := some "2023-01-01".data, exclude := some "draft".data,
          or := some "tutorial,documentation".data } =
      ("search term site:github.com filetype:pdf inurl:docs intitle:guide " ++
        "before:2024-01-01 after:2023-01-01 -draft (tutorial OR documentation)").data := by
  decide

/-- C5: an operator field bound to the empty string contributes nothing: the
builder output equals the output with the field absent (a field explicitly
set to `undefined` is the same value as an absent field in the embedding,
both being `none`). This holds for each of the eleven operator fields. -/
theorem C5_empty_equals_absent (p : SearchParams) :
    buildAdvancedQuery { p with site := some [] } =
      buildAdvancedQuery { p with site := none } ∧
    buildAdvancedQuery { p with filetype := some [] } =
      buildAdvancedQuery { p with filetype := none } ∧
    buildAdvancedQuery { p with inurl := some [] } =
      buildAdvancedQuery { p with inurl := none } ∧
    buildAdvancedQuery { p with intitle := some [] } =
      buildAdvancedQuery { p with intitle := none } ∧
    buildAdvancedQuery { p with related := some [] } =
      buildAdvancedQuery { p with related := none } ∧
    buildAdvancedQuery { p with cache := some [] } =
      buildAdvancedQuery { p with cache := none } ∧
    buildAdvancedQuery { p with before := some [] } =
      buildAdvancedQuery { p with before := none } ∧
    buildAdvancedQuery { p with after := some [] } =
      buildAdvancedQuery { p with after := none } ∧
    buildAdvancedQuery { p with exact := some [] } =
      buildAdvancedQuery { p with exact := none } ∧
    buildAdvancedQuery { p with exclude := some [] } =
      buildAdvancedQuery { p with exclude := none } ∧
    buildAdvancedQuery { p with or := some [] } =
      buildAdvancedQuery { p with or := none } :=
  ⟨rfl, rfl, rfl, rfl, rfl, rfl, rfl, rfl, rfl, rfl, rfl⟩

/-- C3: `batchSearch` rejects an empty list with a "non-empty batch
required" error and constructs no request (hence makes no network call);
for a non-empty list it constructs exactly one request to the search
endpoint whose body is the whole list as one JSON array, and the response
array is returned as-is, index-aligned with the input. The client
implementation is modelled from the spec (see `batchSearchRequest`). -/
theorem C3_batchSearch_contract (c : SerperClient) (ps : List SearchParams)
    (rs : List SearchResult) (hne : ps ≠ []) (hlen : rs.length = ps.length) :
    batchSearchRequest c [] = Except.error "non-empty batch required".data ∧
    (∃ r, batchSearchRequest c ps = Except.ok r ∧
      r.body = RequestBody.batch ps ∧ r.url = c.baseUrl ++ "/search".data) ∧
    (batchSearchDecode rs).length = ps.length ∧
    (∀ i (h1 : i < (batchSearchDecode rs).length) (h2 : i < rs.length),
      (batchSearchDecode rs).get ⟨i, h1⟩ = rs.get ⟨i, h2⟩) := by
  refine ⟨rfl, ?_, ?_, ?_⟩
  · refine ⟨{ url := c.baseUrl ++ "/search".data,
              httpMethod := "POST".data,
              apiKey := c.apiKey,
              body := RequestBody.batch ps }, ?_, rfl, rfl⟩
    rw [batchSearchRequest, if_neg hne]
  · simpa [batchSearchDecode] using hlen
  · intro i h1 h2
    rfl

/-- C3 witness: the contract applied to a singleton batch with a matching
singleton response. -/
theorem C3_witness :
    batchSearchRequest { apiKey := "key".data } [] =
      Except.error "non-empty batch required".data ∧
    (batchSearchDecode [⟨"payload".data⟩]).length =
      [({ q := "a".data } : SearchParams)].length := by
  refine ⟨?_, ?_⟩
  · exact (C3_batchSearch_contract { apiKey := "key".data }
      [{ q := "a".data }] [⟨"payload".data⟩] (by decide) (by decide)).1
  · exact (C3_batchSearch_contract { apiKey := "key".data }
      [{ q := "a".data }] [⟨"payload".data⟩] (by decide) (by decide)).2.2.1

/-- C6: every non-2xx upstream response makes both the search and the scrape
response handlers reject with the same error message, and that message
contains the decimal status code, the status text, and the raw response body
text as substrings. -/
theorem C6_error_carries_status (r : HttpResponse) (h : respOk r = false) :
    searchHandleResponse r = Except.error (serperErrorMsg r) ∧
    scrapeHandleResponse r = Except.error (serperErrorMsg r) ∧
    (∃ a b, serperErrorMsg r = a ++ ((Nat.repr r.status).data ++ b)) ∧
    (∃ a b, serperErrorMsg r = a ++ (r.statusText ++ b)) ∧
    (∃ a b, serperErrorMsg r = a ++ (r.body ++ b)) := by
  refine ⟨?_, ?_, ?_, ?_, ?_⟩
  · rw [searchHandleResponse, if_neg (by simp [h])]
  · rw [scrapeHandleResponse, if_neg (by simp [h])]
  · exact ⟨"Serper API error: ".data,
      ' ' :: (r.statusText ++ (" - ".data ++ r.body)), by
        simp [serperErrorMsg, List.append_assoc]⟩
  · exact ⟨"Serper API error: ".data ++ (Nat.repr r.status).data ++ [' '],
      " - ".data ++ r.body, by simp [serperErrorMsg, List.append_assoc]⟩
  · exact ⟨"Serper API error: ".data ++ (Nat.repr r.status).data ++
      ' ' :: (r.statusText ++ " - ".data), [], by
        simp [serperErrorMsg, List.append_assoc]⟩

/-- C6 witness: the failure-mapping theorem applied at a concrete 403
response. -/
theorem C6_witness :
    searchHandleResponse ⟨403, "Forbidden".data, "Invalid API key".data⟩ =
      Except.error
        (serperErrorMsg ⟨403, "Forbidden".data, "Invalid API key".data⟩) ∧
    scrapeHandleResponse ⟨403, "Forbidden".data, "Invalid API key".data⟩ =
      Except.error
        (serperErrorMsg ⟨403, "Forbidden".data, "Invalid API key".data⟩) := by
  refine ⟨?_, ?_⟩
  · exact (C6_error_carries_status
      ⟨403, "Forbidden".data, "Invalid API key".data⟩ (by decide)).1
  · exact (C6_error_carries_status
      ⟨403, "Forbidden".data, "Invalid API key".data⟩ (by decide)).2.1

/-- C9: for every API key, every configured base URL and every scrape params
with a nonempty URL, the scrape operation posts to the constant endpoint
https://scrape.serper.dev — two clients differing only in base URL build the
identical scrape request — while the search request URL is the configured
base URL with "/search" appended. -/
theorem C9_scrape_endpoint_constant (key b1 b2 : Str) (p : ScrapeParams)
    (sp : SearchParams) (h : p.url ≠ []) :
    (∃ r, scrapeRequest { apiKey := key, baseUrl := b1 } p = Except.ok r ∧
      r.url = scrapeEndpoint) ∧
    scrapeRequest { apiKey := key, baseUrl := b1 } p =
      scrapeRequest { apiKey := key, baseUrl := b2 } p ∧
    (searchRequest { apiKey := key, baseUrl := b1 } sp).url =
      b1 ++ "/search".data := by
  refine ⟨?_, ?_, rfl⟩
  · refine ⟨{ url := scrapeEndpoint,
              httpMethod := "POST".data,
              apiKey := key,
              body := RequestBody.scrapePayload p,
              followRedirects := true }, ?_, rfl⟩
    rw [scrapeRequest, if_neg h]
  · rw [scrapeRequest, scrapeRequest, if_neg h]

/-- C9 witness: the endpoint-constancy theorem at a concrete key, two
distinct base URLs and a concrete scrape request. -/
theorem C9_witness :
    scrapeRequest { apiKey := "key".data, baseUrl := "https://alt.example".data }
        { url := "https://a.example/page".data } =
      scrapeRequest { apiKey := "key".data, baseUrl := defaultBaseUrl }
        { url := "https://a.example/page".data } :=
  (C9_scrape_endpoint_constant "key".data "https://alt.example".data
    defaultBaseUrl { url := "https://a.example/page".data } { q := "x".data }
    (by decide)).2.1

/-- C4 (code bug in variant 2): required-argument validation of the
`google_search` handlers. Variant 1 rejects exactly when any of q, gl, hl is
JS-falsy (missing or empty) and otherwise forwards the three values.
Variant 2 reads the `query` property and coerces it with `String(...)`
before the truthiness check, so `String(undefined) = "undefined"` passes the
check: with gl and hl present and no query text at all it forwards a search
for the literal string "undefined" instead of failing validation —
contradicting the handler's own declared schema (required q, gl, hl). -/
theorem C4_google_search_validation :
    (∀ args : ToolArgs, (handleGoogleSearchV1 args).isOk = true ↔
      (strTruthy args.q = true ∧ strTruthy args.gl = true ∧
        strTruthy args.hl = true)) ∧
    handleGoogleSearchV1 { gl := some "us".data, hl := some "en".data } =
      Except.error requiredArgsError ∧
    handleGoogleSearchV2 { gl := some "us".data, hl := some "en".data } =
      Except.ok { q := "undefined".data, gl := "us".data, hl := "en".data } := by
  refine ⟨?_, rfl, rfl⟩
  intro args
  rw [handleGoogleSearchV1]
  by_cases h1 : strTruthy args.q <;> by_cases h2 : strTruthy args.gl <;>
    by_cases h3 : strTruthy args.hl <;>
      simp [h1, h2, h3, Except.isOk, Except.toBool]

example : sanitizePipeline "  hello   world  ".data = "hello world".data := by
  decide

example : sanitizePipeline "\"\"hello\"".data = "hello".data := by decide

example : sanitizePipeline "a$%b".data = "ab".data := by decide

/-- C7: `validateSearchParams` is pure (no network call is modelled or made)
and succeeds exactly when a query string is present and its sanitized form
is nonempty and at most 500 characters; in every other case — q missing
(which also covers the untyped non-string case, rejected by the same guard
in the source) or empty, or sanitized-empty, or sanitized longer than 500 —
it raises a validation error. -/
theorem C7_validateSearchParams_iff (q : Option Str) :
    (validateSearchParams q).isOk = true ↔
      (∃ qs, q = some qs ∧ sanitizePipeline qs ≠ [] ∧
        (sanitizePipeline qs).length ≤ 500) := by
  cases q with
  | none => simp [validateSearchParams, Except.isOk, Except.toBool]
  | some qv =>
    by_cases hq : qv = []
    · subst hq
      constructor
      · intro h
        simp [validateSearchParams, Except.isOk, Except.toBool] at h
      · rintro ⟨qs, hqs, hne, -⟩
        injection hqs with hqs2
        subst hqs2
        exact absurd rfl hne
    · have hval : validateSearchParams (some qv) =
          (if (sanitizePipeline qv).length = 0 then
            Except.error "Query cannot be empty after sanitization".data
          else if (sanitizePipeline qv).length > 500 then
            Except.error "Query is too long (max 500 characters)".data
          else Except.ok ()) := by
        simp [validateSearchParams, sanitizeQuery, if_neg hq]
      rw [hval]
      by_cases h0 : (sanitizePipeline qv).length = 0
      · have hnil := List.length_eq_zero.mp h0
        rw [if_pos h0]
        constructor
        · intro h
          simp [Except.isOk, Except.toBool] at h
        · rintro ⟨qs, hqs, hne, -⟩
          injection hqs with hqs2
          subst hqs2
          exact absurd hnil hne
      · by_cases h5 : (sanitizePipeline qv).length > 500
        · rw [if_neg h0, if_pos h5]
          constructor
          · intro h
            simp [Except.isOk, Except.toBool] at h
          · rintro ⟨qs, hqs, -, hle⟩
            injection hqs with hqs2
            subst hqs2
            omega
        · rw [if_neg h0, if_neg h5]
          constructor
          · intro _
            exact ⟨qv, rfl, fun hnil => h0 (by rw [hnil]; rfl), by omega⟩
          · intro _
            rfl

/-- C8: the prompt renderers apply the documented defaults — research depth
defaults to "basic", minimum sources to 3, thoroughness to "quick" — so an
absent optional argument renders exactly as the explicit default value does;
a name with no registry entry fails with a "Prompt not found: <name>" error;
rendering is a pure function of the arguments (deterministic, no I/O in the
model). -/
theorem C8_prompt_defaults :
    (∀ a : PromptArgs, a.depth = none →
      getResearchTopicPrompt a =
        getResearchTopicPrompt { a with depth := some "basic".data }) ∧
    (∀ a : PromptArgs, a.min_sources = none →
      getCompareSourcesPrompt a =
        getCompareSourcesPrompt { a with min_sources := some 3 }) ∧
    (∀ a : PromptArgs, a.thoroughness = none →
      getFactCheckPrompt a =
        getFactCheckPrompt { a with thoroughness := some "quick".data }) ∧
    (∀ (name : Str) (a : PromptArgs), lookupPrompt name PROMPTS = none →
      getPrompt name a = Except.error ("Prompt not found: ".data ++ name)) := by
  refine ⟨?_, ?_, ?_, ?_⟩
  · intro a h
    simp [getResearchTopicPrompt, h]
  · intro a h
    simp [getCompareSourcesPrompt, h]
  · intro a h
    simp [getFactCheckPrompt, h]
  · intro name a h
    rw [getPrompt, h]

/-- C8 witness: the defaults theorem applied at concrete argument records
and at a concrete unregistered name. -/
theorem C8_witness :
    getResearchTopicPrompt { topic := some "lean".data } =
      getResearchTopicPrompt
        { topic := some "lean".data, depth := some "basic".data } ∧
    getCompareSourcesPrompt { topic := some "lean".data } =
      getCompareSourcesPrompt
        { topic := some "lean".data, min_sources := some 3 } ∧
    getFactCheckPrompt { claim := some "lean is a prover".data } =
      getFactCheckPrompt
        { claim := some "lean is a prover".data,
          thoroughness := some "quick".data } ∧
    getPrompt "missing-template".data {} =
      Except.error ("Prompt not found: ".data ++ "missing-template".data) := by
  refine ⟨?_, ?_, ?_, ?_⟩
  · exact C8_prompt_defaults.1 _ rfl
  · exact C8_prompt_defaults.2.1 _ rfl
  · exact C8_prompt_defaults.2.2.1 _ rfl
  · exact C8_prompt_defaults.2.2.2 _ _ (by decide)

/-- C10: `getPrompt` succeeds exactly for the four names in the registry —
so every name returned by `listPrompts` is renderable — and for every other
name, including "news-analysis" (which has a renderer case in the dispatch
switch but no registry entry), it fails with a `Prompt not found: <name>`
error raised by the registry lookup before the switch is reached. -/
theorem C10_getPrompt_ok_iff :
    (∀ (name : Str) (a : PromptArgs), (getPrompt name a).isOk = true ↔
      name ∈ listPrompts.map PromptDecl.name) ∧
    (∀ a : PromptArgs, getPrompt "news-analysis".data a =
      Except.error "Prompt not found: news-analysis".data) := by
  constructor
  · intro name a
    by_cases h1 : name = "research-topic".data
    · subst h1
      exact ⟨fun _ => by decide, fun _ => rfl⟩
    · by_cases h2 : name = "compare-sources".data
      · subst h2
        exact ⟨fun _ => by decide, fun _ => rfl⟩
      · by_cases h3 : name = "fact-check".data
        · subst h3
          exact ⟨fun _ => by decide, fun _ => rfl⟩
        · by_cases h4 : name = "technical-search".data
          · subst h4
            exact ⟨fun _ => by decide, fun _ => rfl⟩
          · have hlook : lookupPrompt name PROMPTS = none := by
              simp only [PROMPTS, lookupPrompt]
              rw [if_neg (fun hx => h1 hx.symm), if_neg (fun hx => h2 hx.symm),
                if_neg (fun hx => h3 hx.symm), if_neg (fun hx => h4 hx.symm)]
            have herr : getPrompt name a =
                Except.error ("Prompt not found: ".data ++ name) := by
              rw [getPrompt, hlook]
            rw [herr]
            constructor
            · intro h
              simp [Except.isOk, Except.toBool] at h
            · intro hmem
              exfalso
              simp [listPrompts, PROMPTS, PromptDecl.name] at hmem
              rcases hmem with h | h | h | h
              exacts [h1 h, h2 h, h3 h, h4 h]
  · intro a
    rfl
